import Mathlib

/-!
Verification development for the taitung-air-api repository.

The repository is a small Express service.  Its core logic, embedded below:

* `allMonitorTimes` — the time-window generator of the batch endpoint
  (src/unnamed/part_003 lines 71-78, src/unnamed/part_004 lines 159-165):
  for i in -36..36 it emits `referenceMoment.add(i, 'hours').format('YYYY-MM-DD HH:00')`.
  A moment instant is modelled as an `Int` counting minutes since the Unix
  epoch (moment stores milliseconds; every operation here is whole minutes).
* `fetchDataByTime` — the per-instant fetch (part_003 lines 30-52); its axios
  call is modelled by an `Except` outcome supplied as an argument
  (`Except.error` = the transport threw; `Except.ok` carries the optional
  `records` field of the JSON body, `response.data.records || []`).
* `taitungAirData` — the `/taitung-air-data` handler (part_003 lines 56-111).
  The per-instant settled outcomes of `Promise.allSettled` are modelled by a
  function `String → Option (List Record)` (`none` = the promise rejected,
  `some v` = fulfilled with value `v`).  The handler returns the JSON result
  together with the list of monitor dates actually fetched (the network trace).
* `testSingleRecord_v2` / `testSingleRecord_v4` — the `/test-single-record`
  route in its two variants (part_002 lines 70-117 calls axios directly;
  part_004 lines 199-231 goes through `fetchDataByTime_v4`).
* `huadongAirForecast` — the `/huadong-air-forecast` handler
  (src/server.js lines 25-77, part_004 lines 26-78).

`Array.prototype.sort` with a numeric comparator is stable (ES2019); it is
modelled by Mathlib's stable `List.insertionSort` over the comparator's order.
Calendar arithmetic (moment's parse and `format('YYYY-MM-DD HH:00')`) uses the
standard Gregorian civil-from-days / days-from-civil conversions.
-/

namespace TaitungAir

/-- Gregorian leap-year test. -/
def isLeap (y : Nat) : Bool :=
  (y % 4 == 0 && y % 100 != 0) || y % 400 == 0

/-- Number of days in month `m` of year `y` (months 1-12). -/
def daysInMonth (y m : Nat) : Nat :=
  if m = 2 then (if isLeap y then 29 else 28)
  else if m = 4 ∨ m = 6 ∨ m = 9 ∨ m = 11 then 30
  else 31

/-- Days since 1970-01-01 of the civil date `y-m-d` (standard civil-calendar
conversion, used to model what moment.js stores for a parsed date). -/
def daysFromCivil (y m d : Int) : Int :=
  let y2 := if m ≤ 2 then y - 1 else y
  let era := y2.fdiv 400
  let yoe := y2 - era * 400
  let mp := if 2 < m then m - 3 else m + 9
  let doy := (153 * mp + 2).fdiv 5 + d - 1
  let doe := yoe * 365 + yoe.fdiv 4 - yoe.fdiv 100 + doy
  era * 146097 + doe - 719468

/-- Civil date `(y, m, d)` of a day count since 1970-01-01 (inverse of
`daysFromCivil`; used to model moment's `format`). -/
def civilFromDays (z : Int) : Int × Int × Int :=
  let z2 := z + 719468
  let era := z2.fdiv 146097
  let doe := z2 - era * 146097
  let yoe := (doe - doe.fdiv 1460 + doe.fdiv 36524 - doe.fdiv 146096).fdiv 365
  let y := yoe + era * 400
  let doy := doe - (365 * yoe + yoe.fdiv 4 - yoe.fdiv 100)
  let mp := (5 * doy + 2).fdiv 153
  let d := doy - (153 * mp + 2).fdiv 5 + 1
  let m := if mp < 10 then mp + 3 else mp - 9
  (if m ≤ 2 then y + 1 else y, m, d)

/-- Zero-pad a number to two digits, as moment's `MM`, `DD`, `HH` tokens do. -/
def pad2 (n : Nat) : String :=
  if n < 10 then ("0") ++ toString n else toString n

/-- Zero-pad a number to four digits, as moment's `YYYY` token does. -/
def pad4 (n : Nat) : String :=
  if n < 10 then ("000") ++ toString n
  else if n < 100 then ("00") ++ toString n
  else if n < 1000 then ("0") ++ toString n
  else toString n

/-- The instant `t` (minutes since epoch) with its minutes zeroed: the instant
denoted by `format('YYYY-MM-DD HH:00')` applied to `t`. -/
def hourFloor (t : Int) : Int :=
  (t.fdiv 60) * 60

/-- moment's `format('YYYY-MM-DD HH:00')` on the instant `t` (minutes since
epoch): renders the calendar fields of `t` with the minutes zeroed. -/
def formatYMDHH00 (t : Int) : String :=
  let totalHours := t.fdiv 60
  let day := totalHours.fdiv 24
  let hour := (totalHours.fmod 24).toNat
  let ymd := civilFromDays day
  pad4 ymd.1.toNat ++ ("-") ++ pad2 ymd.2.1.toNat ++ ("-") ++ pad2 ymd.2.2.toNat
    ++ (" ") ++ pad2 hour ++ (":00")

/-- Split a character list at every occurrence of `c` (used to model parsing
of the fixed `YYYY-MM-DD HH:mm` format). -/
def splitOnChar (c : Char) : List Char → List (List Char)
  | [] => [[]]
  | x :: xs =>
    let rest := splitOnChar c xs
    if x = c then [] :: rest
    else
      match rest with
      | [] => [[x]]
      | r :: rs => (x :: r) :: rs

/-- Accumulator for `digitsVal`. -/
def digitsValAux : List Char → Nat → Option Nat
  | [], acc => some acc
  | c :: cs, acc =>
    if c.isDigit then digitsValAux cs (acc * 10 + (c.toNat - 48)) else none

/-- Numeric value of a non-empty all-digit character list. -/
def digitsVal : List Char → Option Nat
  | [] => none
  | c :: cs => digitsValAux (c :: cs) 0

/-- moment's parse of a string in the `YYYY-MM-DD HH:mm` format, combined with
its `isValid()` check (month, day-of-month, hour and minute in range); yields
the instant in minutes since epoch, or `none` when invalid/unparsable.  Models
`moment(REFERENCE_TIME_STR, 'YYYY-MM-DD HH:mm')` (part_003 line 65). -/
def parseYMDHM (s : String) : Option Int :=
  match splitOnChar (' ') s.data with
  | [datePart, timePart] =>
    match splitOnChar ('-') datePart, splitOnChar (':') timePart with
    | [ys, ms, ds], [hs, mins] =>
      match digitsVal ys, digitsVal ms, digitsVal ds, digitsVal hs, digitsVal mins with
      | some y, some mo, some d, some h, some mi =>
        if 1 ≤ mo ∧ mo ≤ 12 ∧ 1 ≤ d ∧ d ≤ daysInMonth y mo ∧ h ≤ 23 ∧ mi ≤ 59 then
          some (daysFromCivil (y : Int) (mo : Int) (d : Int) * 1440
            + (h : Int) * 60 + (mi : Int))
        else none
      | _, _, _, _, _ => none
    | _, _ => none
  | _ => none

/-- Time-window generator of the batch endpoint (part_003 lines 72-78): for
each i in -36..36, `referenceMoment.clone().add(i, 'hours').format('YYYY-MM-DD HH:00')`. -/
def allMonitorTimes (R : Int) : List String :=
  (List.range 73).map (fun i : Nat => formatYMDHH00 (R + ((i : Int) - 36) * 60))

/-- The instants denoted by the formatted strings of `allMonitorTimes`
(hour-granular, minutes zeroed). -/
def allMonitorInstants (R : Int) : List Int :=
  (List.range 73).map (fun i : Nat => hourFloor (R + ((i : Int) - 36) * 60))

/-- One upstream measurement record.  Records are opaque JSON objects; the
core reads `monitordate` (the record-level timestamp, here the value
`new Date(record.monitordate)` parses to) and, in the single-record route,
`itemengname`.  A further payload field keeps distinct records distinguishable
as the real JSON objects are. -/
structure Record where
  monitordate : Int
  itemengname : String
  concentration : String
deriving DecidableEq

/-- Ascending order on records used by the batch aggregator's comparator
`(a, b) => new Date(a.monitordate) - new Date(b.monitordate)` (part_003 line 99). -/
def leDate (a b : Record) : Prop :=
  a.monitordate ≤ b.monitordate

instance : DecidableRel leDate :=
  fun a b => inferInstanceAs (Decidable (a.monitordate ≤ b.monitordate))

instance : IsTotal Record leDate :=
  ⟨fun a b => Int.le_total a.monitordate b.monitordate⟩

instance : IsTrans Record leDate :=
  ⟨fun _ _ _ hab hbc => le_trans hab hbc⟩

/-- Strict version of `leDate`. -/
def ltDate (a b : Record) : Prop :=
  a.monitordate < b.monitordate

instance : IsAntisymm Record ltDate :=
  ⟨fun _ _ h1 h2 => absurd h2 (not_lt.mpr (le_of_lt h1))⟩

/-- The batch endpoint's `allData.sort(...)` (part_003 line 99): a stable sort
by the record's own `monitordate`, modelled by stable insertion sort. -/
def sortRecords (l : List Record) : List Record :=
  List.insertionSort leDate l

/-- Whether a settled fetch outcome is `fulfilled` with a non-empty value:
the guard `result.status === 'fulfilled' && result.value.length > 0`
(part_003 line 92). -/
def settledNonempty (r : Option (List Record)) : Bool :=
  match r with
  | some v => decide (0 < v.length)
  | none => false

/-- One step of the aggregation loop `results.forEach(...)` (part_003
lines 91-96): the accumulator is the pair `(allData, successfulRequests)`. -/
def collectStep (acc : List Record × Nat) (r : Option (List Record)) :
    List Record × Nat :=
  match r with
  | some v => if 0 < v.length then (acc.1 ++ v, acc.2 + 1) else acc
  | none => acc

/-- The aggregation loop over all settled results (part_003 lines 88-96). -/
def collectSettled (results : List (Option (List Record))) : List Record × Nat :=
  results.foldl collectStep ([], 0)

/-- Collect the fulfilled non-empty results and sort them by `monitordate`:
the merge performed by the batch endpoint (part_003 lines 88-99). -/
def mergeResults (results : List (Option (List Record))) : List Record :=
  sortRecords (collectSettled results).1

/-- Status tag of every successful JSON response. -/
def successTag : String := "success"

/-- Status tag of the error JSON responses. -/
def errorTag : String := "error"

/-- Error message of the missing-API-key response of `/taitung-air-data`
(part_003 line 60). -/
def keyErrorMsg : String := "服務配置錯誤：API Key 未設定。"

/-- Guidance field of the missing-API-key response (part_003 line 61). -/
def keyErrorGuidance : String :=
  "請在 Zeabur 環境變數或本地 .env 檔案中設定 KEY 為 API_KEY 的值。"

/-- Error message of the invalid-reference-time response (part_003 line 68). -/
def timeErrorMsg : String := "參考時間格式無效，請檢查 REFERENCE_TIME_STR 設定。"

/-- Summary string of the batch response (part_003 line 108). -/
def mkSummary (k n : Nat) : String :=
  ("成功取得 ") ++ toString k ++ (" 個小時，共 ") ++ toString n ++ (" 筆測項紀錄。")

/-- JSON result of the `/taitung-air-data` handler. -/
inductive BatchResult where
  | keyError (status : Nat) (error guidance : String)
  | timeError (status : Nat) (error : String)
  | ok (status : String) (timeRangeStart timeRangeEnd : String) (summary : String)
      (successfulRequests : Nat) (data : List Record)
deriving DecidableEq

/-- Whether a batch result is the normal (HTTP 200, status `'success'`) response. -/
def BatchResult.isSuccess : BatchResult → Bool
  | .ok .. => true
  | _ => false

/-- Whether a batch result is one of the two configuration-error responses
(missing API key, invalid reference time). -/
def BatchResult.isConfigError : BatchResult → Bool
  | .keyError .. => true
  | .timeError .. => true
  | .ok .. => false

/-- The `successfulRequests` count reported by a batch result. -/
def BatchResult.successCount : BatchResult → Nat
  | .ok _ _ _ _ k _ => k
  | _ => 0

/-- The `data` array of a batch result. -/
def BatchResult.getData : BatchResult → List Record
  | .ok _ _ _ _ _ d => d
  | _ => []

/-- The `/taitung-air-data` handler (part_003 lines 56-111).  `transport`
gives, per requested monitor date, the settled outcome of that instant's
`fetchDataByTime` promise as seen by `Promise.allSettled` (`none` =
rejected, `some v` = fulfilled with `v`).  Returns the JSON result paired
with the list of monitor dates fetched (the network trace; empty when the
handler returns before issuing any request). -/
def taitungAirData (apiKey refTimeStr : String)
    (transport : String → Option (List Record)) : BatchResult × List String :=
  if apiKey = ("") then
    (.keyError 500 keyErrorMsg keyErrorGuidance, [])
  else
    match parseYMDHM refTimeStr with
    | none => (.timeError 400 timeErrorMsg, [])
    | some R =>
      let times := allMonitorTimes R
      let results := times.map transport
      let collected := collectSettled results
      let allData := sortRecords collected.1
      (.ok successTag (times.headD ("")) (times.getLastD (""))
        (mkSummary collected.2 allData.length) collected.2 allData, times)

/-- The per-instant fetch `fetchDataByTime` (part_003 lines 30-52).  The
argument is the outcome of `axios.get`: `Except.error` = the call threw,
`Except.ok` carries the optional `records` field of the body
(`response.data.records || []`).  The catch block turns every failure into
an empty list, so the function is total: the promise always resolves. -/
def fetchDataByTime (outcome : Except String (Option (List Record))) :
    List Record :=
  match outcome with
  | .ok respRecords => respRecords.getD []
  | .error _ => []

/-- Error message thrown by `fetchDataByTime` of part_004 when the API key is
absent (part_004 line 118). -/
def apiKeyMissingMsg : String := "API Key 環境變數未設置。"

/-- The part_004 variant of `fetchDataByTime` (part_004 lines 114-140):
identical to `fetchDataByTime` except that it throws (promise rejects)
when the API key is absent, before any network call. -/
def fetchDataByTime_v4 (apiKey : String)
    (outcome : Except String (Option (List Record))) :
    Except String (List Record) :=
  if apiKey = ("") then .error apiKeyMissingMsg
  else
    match outcome with
    | .ok respRecords => .ok (respRecords.getD [])
    | .error _ => .ok []

/-- Item name filtered for by the single-record test route. -/
def pm25Name : String := "PM2.5"

/-- The fixed test instant of the single-record route (part_002 line 72,
part_004 line 201). -/
def TEST_DATE : String := "2025-11-26 17:00"

/-- The `test_target` field of the single-record success response. -/
def testTargetStr : String := ("臺東測站 @ ") ++ TEST_DATE

/-- Error message of the single-record route's missing-key response
(part_002 line 89, part_004 line 204). -/
def testKeyMsg : String := "API Key 未設置，無法測試。"

/-- Message of the single-record route's catch-block response
(part_002 line 113, part_004 line 227). -/
def singleTestMsg : String := "單點測試時發生錯誤"

/-- JSON result of the `/test-single-record` handler.  In `ok`, the `pm25`
field models `pm25Record || "未找到 PM2.5 紀錄"` (`none` = the placeholder
message). -/
inductive SingleResult where
  | keyError (status : Nat) (error : String)
  | ok (status testTarget : String) (totalRecordsFound : Nat)
      (pm25 : Option Record) (allRecordsForTest : List Record)
  | fail (status : Nat) (statusTag message detail : String)
deriving DecidableEq

/-- Whether a single-record result is one of the error responses. -/
def SingleResult.isError : SingleResult → Bool
  | .keyError .. => true
  | .fail .. => true
  | .ok .. => false

/-- The `/test-single-record` handler of part_002 (lines 70-117): it calls
`axios.get` directly, so a transport failure reaches its catch block and is
surfaced as an HTTP 500 error response. -/
def testSingleRecord_v2 (apiKey : String)
    (outcome : Except String (Option (List Record))) : SingleResult :=
  if apiKey = ("") then .keyError 500 testKeyMsg
  else
    match outcome with
    | .error e => .fail 500 errorTag singleTestMsg e
    | .ok respRecords =>
      let records := respRecords.getD []
      .ok successTag testTargetStr records.length
        (records.find? (fun r => r.itemengname = pm25Name)) records

/-- The `/test-single-record` handler of part_004 (lines 199-231): it calls
`fetchDataByTime` (here `fetchDataByTime_v4`), whose catch block swallows
transport failures, so its own catch block can only see the missing-key
throw. -/
def testSingleRecord_v4 (apiKey : String)
    (outcome : Except String (Option (List Record))) : SingleResult :=
  if apiKey = ("") then .keyError 500 testKeyMsg
  else
    match fetchDataByTime_v4 apiKey outcome with
    | .error e => .fail 500 errorTag singleTestMsg e
    | .ok records =>
      .ok successTag testTargetStr records.length
        (records.find? (fun r => r.itemengname = pm25Name)) records

/-- The reference instant string of the part_004 batch route (line 105). -/
def REFERENCE_TIME_STR : String := "2025-11-26 00:00"

/-- One forecast record of the `/huadong-air-forecast` route; the core reads
`area` (filter) and `publishtime` (sort key, as parsed by `new Date`). -/
structure FRecord where
  area : String
  publishtime : Int
  content : String
deriving DecidableEq

/-- Descending order on forecast records used by the comparator
`(a, b) => new Date(b.publishtime) - new Date(a.publishtime)`
(server.js line 57): `a` precedes `b` when `a` is the newer record. -/
def gePub (a b : FRecord) : Prop :=
  b.publishtime ≤ a.publishtime

instance : DecidableRel gePub :=
  fun a b => inferInstanceAs (Decidable (b.publishtime ≤ a.publishtime))

instance : IsTotal FRecord gePub :=
  ⟨fun a b => (Int.le_total b.publishtime a.publishtime)⟩

instance : IsTrans FRecord gePub :=
  ⟨fun _ _ _ hab hbc => le_trans hbc hab⟩

/-- Region filtered for by the forecast route. -/
def TARGET_AREA : String := "花東"

/-- Error message of the forecast route's missing-key response
(server.js line 31). -/
def forecastKeyMsg : String := "服務配置錯誤：API Key 環境變數未設定。"

/-- Message of the forecast route's catch-block response (server.js line 73). -/
def forecastErrMsg : String := "呼叫環境部 API 時發生連線或內部錯誤。"

/-- JSON result of the `/huadong-air-forecast` handler. -/
inductive ForecastResult where
  | keyError (status : Nat) (statusTag message : String)
  | ok (status : String) (totalCount : Nat) (data : List FRecord)
  | fail (status : Nat) (statusTag message detail : String)
deriving DecidableEq

/-- The `data` array of a forecast result. -/
def ForecastResult.getData : ForecastResult → List FRecord
  | .ok _ _ d => d
  | _ => []

/-- The filter-and-sort pipeline of the forecast route (server.js lines
51-57): keep the records whose `area` is `'花東'`, then stable-sort them
descending by `publishtime` (newest first). -/
def processForecast (respRecords : Option (List FRecord)) : List FRecord :=
  List.insertionSort gePub
    ((respRecords.getD []).filter (fun r => r.area = TARGET_AREA))

/-- The `/huadong-air-forecast` handler (server.js lines 25-77, part_004
lines 26-78).  The argument is the outcome of the single `axios.get`. -/
def huadongAirForecast (apiKey : String)
    (outcome : Except String (Option (List FRecord))) : ForecastResult :=
  if apiKey = ("") then .keyError 500 errorTag forecastKeyMsg
  else
    match outcome with
    | .error e => .fail 500 errorTag forecastErrMsg e
    | .ok respRecords =>
      let allRecords := respRecords.getD []
      .ok successTag allRecords.length (processForecast respRecords)

/-- Concrete record used in counterexamples and witnesses: a PM2.5 reading. -/
def rA : Record := ⟨0, "PM2.5", "10"⟩

/-- Concrete record sharing `rA`'s monitordate but for a different item. -/
def rB : Record := ⟨0, "PM10", "20"⟩

/-- Concrete record one hour after `rA`. -/
def rC : Record := ⟨60, "PM10", "20"⟩

/-! Helper lemmas about the embedded definitions. -/

theorem sorted_lt_of_le {l : List Record} (hs : List.Sorted leDate l)
    (hn : (l.map Record.monitordate).Nodup) : List.Sorted ltDate l := by
  have hne : l.Pairwise (fun a b => a.monitordate ≠ b.monitordate) :=
    List.pairwise_map.mp hn
  exact List.Pairwise.imp₂ (fun _ _ h1 h2 => lt_of_le_of_ne h1 h2) hs hne

theorem formatYMDHH00_hourFloor (t : Int) :
    formatYMDHH00 (hourFloor t) = formatYMDHH00 t := by
  unfold formatYMDHH00 hourFloor
  rw [Int.mul_fdiv_cancel _ (by decide : (60 : Int) ≠ 0)]

theorem fdiv_sixty_add_mul (R k : Int) : (R + k * 60).fdiv 60 = R.fdiv 60 + k := by
  rw [Int.fdiv_eq_ediv _ (by decide : (0 : Int) ≤ 60),
    Int.fdiv_eq_ediv _ (by decide : (0 : Int) ≤ 60),
    Int.add_mul_ediv_right _ _ (by decide : (60 : Int) ≠ 0)]

theorem hourFloor_add_mul (R k : Int) :
    hourFloor (R + k * 60) = hourFloor R + k * 60 := by
  unfold hourFloor
  rw [fdiv_sixty_add_mul, add_mul]

theorem foldl_collectStep (rs : List (Option (List Record))) :
    ∀ acc, rs.foldl collectStep acc
      = (acc.1 ++ (rs.filterMap id).flatten, acc.2 + rs.countP settledNonempty) := by
  induction rs with
  | nil => intro acc; simp
  | cons r rs ih =>
    intro acc
    rw [List.foldl_cons, ih]
    cases r with
    | none => simp [collectStep, settledNonempty, List.countP_cons]
    | some v =>
      by_cases hv : 0 < v.length
      · simp [collectStep, hv, settledNonempty, List.countP_cons, Nat.add_comm,
          Nat.add_assoc, Nat.add_left_comm]
      · have hnil : v = [] := List.length_eq_zero.mp (Nat.eq_zero_of_not_pos hv)
        subst hnil
        simp [collectStep, settledNonempty, List.countP_cons]

theorem collectSettled_fst (rs : List (Option (List Record))) :
    (collectSettled rs).1 = (rs.filterMap id).flatten := by
  unfold collectSettled
  rw [foldl_collectStep]
  simp

theorem collectSettled_snd (rs : List (Option (List Record))) :
    (collectSettled rs).2 = rs.countP settledNonempty := by
  unfold collectSettled
  rw [foldl_collectStep]
  simp

theorem mergeResults_perm (rs : List (Option (List Record))) :
    List.Perm (mergeResults rs) ((rs.filterMap id).flatten) := by
  unfold mergeResults sortRecords
  rw [collectSettled_fst]
  exact List.perm_insertionSort leDate _

theorem mergeResults_sorted (rs : List (Option (List Record))) :
    List.Sorted leDate (mergeResults rs) :=
  List.sorted_insertionSort leDate _

theorem collectSettled_allFail (rs : List (Option (List Record)))
    (h : ∀ r ∈ rs, r = none ∨ r = some ([] : List Record)) :
    collectSettled rs = ([], 0) := by
  have h1 : (rs.filterMap id).flatten = ([] : List Record) := by
    rw [List.flatten_eq_nil_iff]
    intro x hx
    rcases List.mem_filterMap.mp hx with ⟨r, hr, hid⟩
    rcases h r hr with h' | h'
    · rw [h'] at hid; cases hid
    · rw [h'] at hid
      cases hid
      rfl
  have h2 : rs.countP settledNonempty = 0 := by
    rw [List.countP_eq_zero]
    intro r hr
    rcases h r hr with h' | h' <;> rw [h'] <;> simp [settledNonempty]
  have := collectSettled_fst rs
  have := collectSettled_snd rs
  ext
  · rw [collectSettled_fst, h1]
  · rw [collectSettled_snd, h2]

theorem sortRecords_nil : sortRecords [] = [] := rfl

theorem taitungAirData_allFail (k s : String) (R : Int)
    (transport : String → Option (List Record))
    (hk : ¬ k = (""))
    (hs : parseYMDHM s = some R)
    (hfail : ∀ t, transport t = none ∨ transport t = some []) :
    taitungAirData k s transport
      = (.ok successTag ((allMonitorTimes R).headD ("")) ((allMonitorTimes R).getLastD (""))
          (mkSummary 0 0) 0 [], allMonitorTimes R) := by
  have hc : collectSettled ((allMonitorTimes R).map transport) = ([], 0) := by
    apply collectSettled_allFail
    intro r hr
    rcases List.mem_map.mp hr with ⟨t, _, ht⟩
    rw [← ht]
    exact hfail t
  simp only [taitungAirData, if_neg hk, hs, hc, sortRecords_nil, List.length_nil]

/-! Claim theorems. -/

/-- C1: for every reference instant R the time-window generator produces
exactly 73 hour-granular instants (the formatted strings denote the
hour-floored instants, minutes zeroed), strictly increasing by exactly one
hour (60 minutes) each; element i is (R normalized to the hour) plus
(i - 36) hours, so element 36 is R normalized to the hour. -/
theorem spec_C1_time_window (R : Int) :
    (allMonitorTimes R).length = 73 ∧
    allMonitorTimes R = (allMonitorInstants R).map formatYMDHH00 ∧
    allMonitorInstants R
      = (List.range 73).map (fun n : Nat => hourFloor R + ((n : Int) - 36) * 60) ∧
    (allMonitorInstants R).getD 36 0 = hourFloor R ∧
    List.Chain' (fun a b => b = a + 60) (allMonitorInstants R) := by
  have hfun : (fun i : Nat => hourFloor (R + ((i : Int) - 36) * 60))
      = (fun n : Nat => hourFloor R + ((n : Int) - 36) * 60) :=
    funext fun i => hourFloor_add_mul R ((i : Int) - 36)
  have h3 : allMonitorInstants R
      = (List.range 73).map (fun n : Nat => hourFloor R + ((n : Int) - 36) * 60) := by
    unfold allMonitorInstants
    rw [hfun]
  refine ⟨?_, ?_, h3, ?_, ?_⟩
  · simp [allMonitorTimes]
  · have hcomp : formatYMDHH00 ∘ (fun i : Nat => hourFloor (R + ((i : Int) - 36) * 60))
        = (fun i : Nat => formatYMDHH00 (R + ((i : Int) - 36) * 60)) :=
      funext fun i => formatYMDHH00_hourFloor (R + ((i : Int) - 36) * 60)
    unfold allMonitorTimes allMonitorInstants
    rw [List.map_map, hcomp]
  · rw [h3]
    rw [List.getD_eq_getElem?_getD, List.getElem?_map,
      List.getElem?_range (by norm_num : (36 : Nat) < 73)]
    norm_num
  · rw [h3, List.chain'_map]
    have h73 : List.range 73 = List.range (72 + 1) := rfl
    rw [h73]
    refine (List.chain'_range_succ _ 72).mpr ?_
    intro m _
    push_cast
    ring

/-- C9: with the part_004 reference instant `2025-11-26 00:00`, whose parse
is the instant 29401920 (minutes since epoch), the generated window's first
element is `2025-11-24 12:00` and its last element is `2025-11-27 12:00`. -/
theorem spec_C9_window_endpoints :
    parseYMDHM REFERENCE_TIME_STR = some 29401920 ∧
    (allMonitorTimes 29401920).headD ("") = ("2025-11-24 12:00") ∧
    (allMonitorTimes 29401920).getLastD ("") = ("2025-11-27 12:00") :=
  ⟨by decide, by decide, by decide⟩

/-- C5: when the API key is absent (the empty string, which is what the
`!API_KEY` check detects) the batch endpoint returns the HTTP 500
configuration-error response and issues no fetch at all (empty trace). -/
theorem spec_C5_missing_key (s : String) (transport : String → Option (List Record)) :
    taitungAirData ("") s transport
      = (.keyError 500 keyErrorMsg keyErrorGuidance, []) := by
  simp [taitungAirData]

/-- C8: when the reference instant does not parse as a valid
`YYYY-MM-DD HH:mm` instant, the batch endpoint returns a configuration-error
response (missing-key or invalid-time, both checked before any fetch) and
its network trace is empty. -/
theorem spec_C8_invalid_reference (k s : String)
    (transport : String → Option (List Record))
    (hs : parseYMDHM s = none) :
    ((taitungAirData k s transport).1).isConfigError = true ∧
    (taitungAirData k s transport).2 = [] := by
  by_cases hk : k = ("")
  · subst hk
    simp [taitungAirData, BatchResult.isConfigError]
  · simp [taitungAirData, if_neg hk, hs, BatchResult.isConfigError]

/-- C8 witness: the concrete unparsable reference `not a date` yields a
configuration error and an empty network trace. -/
theorem spec_C8_invalid_reference_witness :
    ((taitungAirData ("k") ("not a date") (fun _ => none)).1).isConfigError = true ∧
    (taitungAirData ("k") ("not a date") (fun _ => none)).2 = [] :=
  spec_C8_invalid_reference ("k") ("not a date") (fun _ => none) (by decide)

/-- C2: for every outcome vector of the per-instant fetches (one settled
outcome per generated monitor date), the batch endpoint returns a success
response whose successful-request count is exactly the number of outcomes
that are fulfilled with a non-empty record list, and whose data array is,
as a multiset, exactly the concatenation of the fulfilled record lists —
failed (rejected) fetches contribute nothing and surface no error. -/
theorem spec_C2_aggregation (k s : String) (R : Int)
    (transport : String → Option (List Record))
    (hk : ¬ k = ("")) (hs : parseYMDHM s = some R) :
    ((taitungAirData k s transport).1).isSuccess = true ∧
    ((taitungAirData k s transport).1).successCount
      = ((allMonitorTimes R).map transport).countP settledNonempty ∧
    List.Perm (((taitungAirData k s transport).1).getData)
      ((((allMonitorTimes R).map transport).filterMap id).flatten) := by
  have hT : (taitungAirData k s transport).1
      = BatchResult.ok successTag ((allMonitorTimes R).headD (""))
          ((allMonitorTimes R).getLastD (""))
          (mkSummary (collectSettled ((allMonitorTimes R).map transport)).2
            (sortRecords (collectSettled ((allMonitorTimes R).map transport)).1).length)
          (collectSettled ((allMonitorTimes R).map transport)).2
          (sortRecords (collectSettled ((allMonitorTimes R).map transport)).1) := by
    simp only [taitungAirData, if_neg hk, hs]
  rw [hT]
  refine ⟨rfl, ?_, ?_⟩
  · simp only [BatchResult.successCount, collectSettled_snd]
  · simp only [BatchResult.getData]
    exact mergeResults_perm ((allMonitorTimes R).map transport)

/-- C2 witness: concrete instantiation with a transport whose every promise
rejects. -/
theorem spec_C2_aggregation_witness :
    ((taitungAirData ("k") REFERENCE_TIME_STR (fun _ => none)).1).isSuccess = true ∧
    ((taitungAirData ("k") REFERENCE_TIME_STR (fun _ => none)).1).successCount
      = ((allMonitorTimes 29401920).map (fun _ => none)).countP settledNonempty ∧
    List.Perm (((taitungAirData ("k") REFERENCE_TIME_STR (fun _ => none)).1).getData)
      ((((allMonitorTimes 29401920).map (fun _ => none)).filterMap id).flatten) :=
  spec_C2_aggregation ("k") REFERENCE_TIME_STR 29401920 (fun _ => none)
    (by decide) (by decide)

/-- C4: when every per-instant fetch fails (rejects) or yields an empty
record list, the batch endpoint still returns the status-`'success'`
response, with an empty data array and a successful-request count of 0. -/
theorem spec_C4_all_fail (k s : String) (R : Int)
    (transport : String → Option (List Record))
    (hk : ¬ k = ("")) (hs : parseYMDHM s = some R)
    (hfail : ∀ t, transport t = none ∨ transport t = some []) :
    (taitungAirData k s transport).1
      = BatchResult.ok successTag ((allMonitorTimes R).headD (""))
          ((allMonitorTimes R).getLastD ("")) (mkSummary 0 0) 0 [] := by
  rw [taitungAirData_allFail k s R transport hk hs hfail]

/-- C4 witness: concrete instantiation with a transport whose every promise
rejects. -/
theorem spec_C4_all_fail_witness :
    (taitungAirData ("k") REFERENCE_TIME_STR (fun _ => none)).1
      = BatchResult.ok successTag ((allMonitorTimes 29401920).headD (""))
          ((allMonitorTimes 29401920).getLastD ("")) (mkSummary 0 0) 0 [] :=
  spec_C4_all_fail ("k") REFERENCE_TIME_STR 29401920 (fun _ => none)
    (by decide) (by decide) (fun _ => Or.inl rfl)

/-- C7: a failed per-instant fetch yields the empty record list and the
failure is not propagated: `fetchDataByTime` of part_003 is total (its
promise always resolves) and maps any transport error to `[]`; the part_004
variant, once the API key is present, likewise always resolves and maps any
transport error to a resolved `[]`.  The batch handler's network trace is
exactly the generated monitor-date list, so each instant is fetched exactly
once (no retry). -/
theorem spec_C7_fetch_failure (k e s : String) (R : Int)
    (o : Except String (Option (List Record)))
    (transport : String → Option (List Record))
    (hk : ¬ k = ("")) (hs : parseYMDHM s = some R) :
    fetchDataByTime (Except.error e) = [] ∧
    (fetchDataByTime_v4 k o).isOk = true ∧
    fetchDataByTime_v4 k (Except.error e) = Except.ok [] ∧
    (taitungAirData k s transport).2 = allMonitorTimes R := by
  refine ⟨rfl, ?_, ?_, ?_⟩
  · unfold fetchDataByTime_v4
    rw [if_neg hk]
    cases o <;> rfl
  · unfold fetchDataByTime_v4
    rw [if_neg hk]
  · simp only [taitungAirData, if_neg hk, hs]

/-- C7 witness: concrete instantiation. -/
theorem spec_C7_fetch_failure_witness :
    fetchDataByTime (Except.error ("boom")) = [] ∧
    (fetchDataByTime_v4 ("k") (Except.ok none)).isOk = true ∧
    fetchDataByTime_v4 ("k") (Except.error ("boom")) = Except.ok [] ∧
    (taitungAirData ("k") REFERENCE_TIME_STR (fun _ => none)).2
      = allMonitorTimes 29401920 :=
  spec_C7_fetch_failure ("k") ("boom") REFERENCE_TIME_STR 29401920
    (Except.ok none) (fun _ => none) (by decide) (by decide)

/-- C3 counterexample: two fulfilled fetch results carrying records with equal
monitordate values: the two supply orders are permutations of each other yet
the merged sequences differ (the stable sort keeps tied records in input
order), so the merge is not permutation-invariant as claimed. -/
theorem spec_C3_counterexample :
    List.Perm [some [rA], some [rB]] [some [rB], some [rA]] ∧
    mergeResults [some [rA], some [rB]] ≠ mergeResults [some [rB], some [rA]] := by
  constructor
  · decide
  · decide

/-- C3 amended: the merged output is always — for every outcome vector,
tied timestamps included — sorted ascending by the record's own monitordate
field; and whenever the fetched records' monitordate values are pairwise
distinct, the merged sequence is additionally identical under any
permutation of the supplied settled results (order-independence holds
exactly up to records with tied timestamps). -/
theorem spec_C3_sorted_merge (rs rs2 : List (Option (List Record))) :
    List.Sorted leDate (mergeResults rs) ∧
    (List.Perm rs rs2 →
      (((rs.filterMap id).flatten).map Record.monitordate).Nodup →
      mergeResults rs = mergeResults rs2) := by
  refine ⟨mergeResults_sorted rs, ?_⟩
  intro hperm hkeys
  have hp : List.Perm (mergeResults rs) (mergeResults rs2) :=
    (mergeResults_perm rs).trans
      (((hperm.filterMap id).flatten).trans (mergeResults_perm rs2).symm)
  have hk1 : ((mergeResults rs).map Record.monitordate).Nodup := by
    have hmp : List.Perm ((mergeResults rs).map Record.monitordate)
        (((rs.filterMap id).flatten).map Record.monitordate) :=
      (mergeResults_perm rs).map _
    exact (hmp.nodup_iff).mpr hkeys
  have hk2 : ((mergeResults rs2).map Record.monitordate).Nodup := by
    have hmp := hp.map Record.monitordate
    exact (hmp.nodup_iff).mp hk1
  exact List.eq_of_perm_of_sorted hp
    (sorted_lt_of_le (mergeResults_sorted rs) hk1)
    (sorted_lt_of_le (mergeResults_sorted rs2) hk2)

/-- C3 witness: a tied-timestamp merge is still sorted, and two
single-record results with distinct monitordates merge to the same sorted
sequence in either supply order. -/
theorem spec_C3_sorted_merge_witness :
    List.Sorted leDate (mergeResults [some [rA], some [rB]]) ∧
    List.Sorted leDate (mergeResults [some [rA], some [rC]]) ∧
    mergeResults [some [rA], some [rC]] = mergeResults [some [rC], some [rA]] :=
  ⟨(spec_C3_sorted_merge [some [rA], some [rB]] [some [rA], some [rB]]).1,
   (spec_C3_sorted_merge [some [rA], some [rC]] [some [rC], some [rA]]).1,
   (spec_C3_sorted_merge [some [rA], some [rC]] [some [rC], some [rA]]).2
     (by decide) (by decide)⟩

/-- C6 counterexample: in the part_004 single-record route a transport-level
failure is swallowed inside `fetchDataByTime`, so the route answers the
empty success response, not an error response, refuting the claim for that
variant of the single-record path. -/
theorem spec_C6_counterexample :
    testSingleRecord_v4 ("k") (Except.error ("ECONNREFUSED"))
      = SingleResult.ok successTag testTargetStr 0 none [] ∧
    (testSingleRecord_v4 ("k") (Except.error ("ECONNREFUSED"))).isError = false := by
  constructor
  · decide
  · decide

/-- C6 amended: the part_002 single-record route, which issues the upstream
call directly, surfaces a transport failure as an HTTP 500 error response —
distinct from an empty success — while the batch route under the same total
fault still answers success with empty data; the part_004 single-record
route instead inherits `fetchDataByTime`'s swallow-errors policy and answers
the empty success response under the same fault. -/
theorem spec_C6_single_record_error (k e s : String) (R : Int)
    (hk : ¬ k = ("")) (hs : parseYMDHM s = some R) :
    testSingleRecord_v2 k (Except.error e)
      = SingleResult.fail 500 errorTag singleTestMsg e ∧
    (testSingleRecord_v2 k (Except.error e)).isError = true ∧
    ((taitungAirData k s (fun _ => none)).1).isSuccess = true ∧
    ((taitungAirData k s (fun _ => none)).1).getData = [] ∧
    testSingleRecord_v4 k (Except.error e)
      = SingleResult.ok successTag testTargetStr 0 none [] := by
  have hbatch := taitungAirData_allFail k s R (fun _ => none) hk hs (fun _ => Or.inl rfl)
  refine ⟨?_, ?_, ?_, ?_, ?_⟩
  · unfold testSingleRecord_v2
    rw [if_neg hk]
  · unfold testSingleRecord_v2
    rw [if_neg hk]
    rfl
  · rw [hbatch]
    rfl
  · rw [hbatch]
    rfl
  · unfold testSingleRecord_v4 fetchDataByTime_v4
    rw [if_neg hk, if_neg hk]
    rfl

/-- C6 witness: concrete instantiation of the amended statement. -/
theorem spec_C6_single_record_error_witness :
    testSingleRecord_v2 ("k") (Except.error ("boom"))
      = SingleResult.fail 500 errorTag singleTestMsg ("boom") ∧
    (testSingleRecord_v2 ("k") (Except.error ("boom"))).isError = true ∧
    ((taitungAirData ("k") REFERENCE_TIME_STR (fun _ => none)).1).isSuccess = true ∧
    ((taitungAirData ("k") REFERENCE_TIME_STR (fun _ => none)).1).getData = [] ∧
    testSingleRecord_v4 ("k") (Except.error ("boom"))
      = SingleResult.ok successTag testTargetStr 0 none [] :=
  spec_C6_single_record_error ("k") ("boom") REFERENCE_TIME_STR 29401920
    (by decide) (by decide)

/-- C10: on a successful upstream call (API key present), the forecast route
returns the success response whose data array is the 花東-filtered records
sorted descending by their own publishtime field (newest first) — the
reverse orientation of the batch route's ascending monitordate order. -/
theorem spec_C10_forecast_desc (k : String) (resp : Option (List FRecord))
    (hk : ¬ k = ("")) :
    huadongAirForecast k (Except.ok resp)
      = ForecastResult.ok successTag (resp.getD []).length (processForecast resp) ∧
    List.Sorted gePub ((huadongAirForecast k (Except.ok resp)).getData) := by
  have h : huadongAirForecast k (Except.ok resp)
      = ForecastResult.ok successTag (resp.getD []).length (processForecast resp) := by
    unfold huadongAirForecast
    rw [if_neg hk]
  refine ⟨h, ?_⟩
  rw [h]
  show List.Sorted gePub (processForecast resp)
  unfold processForecast
  exact List.sorted_insertionSort gePub _

/-- C10 witness: concrete instantiation with a body carrying no records. -/
theorem spec_C10_forecast_desc_witness :
    huadongAirForecast ("k") (Except.ok none)
      = ForecastResult.ok successTag ((none : Option (List FRecord)).getD []).length
          (processForecast none) ∧
    List.Sorted gePub ((huadongAirForecast ("k") (Except.ok none)).getData) :=
  spec_C10_forecast_desc ("k") none (by decide)

end TaitungAir
